import Mathlib

/-!
Verification of the Slack-AI-SQL-Bot request pipeline.

Shallow embedding of the repository's Python sources:
  - `src/config.py`   : the fixed limits (`Config.MAX_RESULT_ROWS`, `Config.QUERY_TIMEOUT`);
  - `src/db.py`       : `DatabaseExecutor._is_safe_query` and `DatabaseExecutor.execute_query`
    (the external `sqlparse` library and the PostgreSQL connection are oracles:
    a parse function returning the list of statement types, `none` standing for a
    raised parse exception; a pool-acquisition outcome; a per-statement database
    outcome covering the driver's exception classes);
  - `src/error_handlers.py` : `BotError` and `ErrorHandler.format_error`;
  - `src/utils.py`    : `format_table_for_slack` and `format_error_message`;
  - `src/main.py`     : the background pipeline `process_slash_command`, modelled as
    the trace of externally visible events (LLM call, executor call, Slack message
    sent); `slack_handler.send_response` is treated as an always-succeeding effect.

SQL text handled by the query gate is `List Char` (Python `str`); Python's
`str.upper` is `Char.toUpper` mapped over the characters (the keywords involved
are ASCII), `in` on strings is list-infix containment, and database cell values
are carried as their display strings (Python applies `str` to each cell).
-/

/-! Configuration constants, src/config.py lines 36-37. -/

def Config.MAX_RESULT_ROWS : Nat := 10

def Config.QUERY_TIMEOUT : Nat := 30

/-! Query gate, src/db.py lines 61-86 (`DatabaseExecutor._is_safe_query`). -/

/-- Python `s.upper()` on the character list of an SQL string. -/
def pyUpper (s : List Char) : List Char := s.map Char.toUpper

/-- Python `needle in hay` for strings: substring (list-infix) containment. -/
def pyIn (needle hay : List Char) : Bool := decide (needle <:+: hay)

/-- The denylist `dangerous` of src/db.py line 77. -/
def dangerousKeywords : List (List Char) :=
  ["DROP".data, "DELETE".data, "UPDATE".data, "INSERT".data, "ALTER".data, "TRUNCATE".data]

/-- `DatabaseExecutor._is_safe_query` (src/db.py lines 61-86).  `parse` is the
external `sqlparse.parse` oracle: `none` models a raised exception (caught and
turned into `false`); `some stmts` gives for each parsed statement the string
returned by `statement.get_type()`.  The code uppercases the first statement's
type and requires it to be `"SELECT"`, then rejects if any denylisted keyword
occurs in the uppercased raw text. -/
def is_safe_query (parse : List Char → Option (List (List Char))) (sql : List Char) : Bool :=
  match parse sql with
  | none => false
  | some [] => false
  | some (stmtType :: _) =>
    if pyUpper stmtType ≠ "SELECT".data then false
    else if dangerousKeywords.any (fun kw => pyIn kw (pyUpper sql)) then false
    else true

/-! Error model, src/error_handlers.py. -/

/-- The concrete `BotError` subclass raised (src/error_handlers.py lines 29-50). -/
inductive ErrKind
  | sqlGeneration
  | database
  | validation
  | slack
  | base
deriving DecidableEq

/-- `BotError` (src/error_handlers.py lines 13-26): technical `message` plus an
optional user-facing string. -/
structure BotError where
  kind : ErrKind
  message : String
  user_friendly : Option String
deriving DecidableEq

/-- Python `a or b` on an optional string and a string: `None` and the empty
string are falsy, so both fall through to `b`. -/
def pyOr : Option String → String → String
  | none, b => b
  | some s, b => if s = "" then b else s

/-- Python `error.__class__.__name__` for the modelled `BotError` hierarchy. -/
def BotError.className (e : BotError) : String :=
  match e.kind with
  | .sqlGeneration => "SQLGenerationError"
  | .database => "DatabaseError"
  | .validation => "ValidationError"
  | .slack => "SlackError"
  | .base => "BotError"

/-- A Python exception as seen by the pipeline's handlers: either a typed
`BotError` or any other exception carrying its `str` rendering. -/
inductive PyExc
  | botError (e : BotError)
  | other (message : String)
deriving DecidableEq

/-- The dictionary returned by `ErrorHandler.format_error` (src/error_handlers.py
lines 58-76): keys `type`, `message`, `slack_text`. -/
structure ErrorResponse where
  etype : String
  message : String
  slack_text : String
deriving DecidableEq

/-- `ErrorHandler.format_error` (src/error_handlers.py lines 58-76): a `BotError`
keeps its class name and internal message, and the Slack text is the warning
glyph followed by `user_friendly or message`; any other exception maps to the
fixed unexpected-error dictionary. -/
def ErrorHandler.format_error : PyExc → ErrorResponse
  | .botError e =>
    { etype := e.className, message := e.message,
      slack_text := "⚠️ " ++ pyOr e.user_friendly e.message }
  | .other s =>
    { etype := "UnexpectedError", message := s,
      slack_text := "⚠️ An unexpected error occurred. Please try again later." }

/-! Utilities, src/utils.py. -/

/-- `format_error_message` (src/utils.py lines 52-56). -/
def format_error_message (error_text : String) : String :=
  "```\n⚠️ " ++ error_text ++ "\n```"

/-- `format_table_for_slack` (src/utils.py lines 13-42).  Cell values are their
display strings (Python `str(v)`). -/
def format_table_for_slack (columns : List String) (rows : List (List String))
    (query_info : String) : String :=
  if columns.isEmpty then "No results found"
  else if rows.isEmpty then "No data returned"
  else
    let header := String.intercalate " | " columns
    let separator := String.intercalate " | " (List.replicate columns.length "---")
    let row_strs := (rows.take 10).map (fun row => String.intercalate " | " row)
    let table := "```\n" ++ header ++ "\n" ++ separator ++ "\n" ++
      String.intercalate "\n" row_strs
    let table2 :=
      if rows.length > 10 then
        table ++ "\n... and " ++ toString (rows.length - 10) ++ " more rows"
      else table
    table2 ++ "\n```\n_Query returned " ++ query_info ++ "_"

/-- The result formatter as the spec's words describe it (for comparison with
`format_table_for_slack`): zero columns give the fixed no-results string,
otherwise a header row, a separator line, and one line per GIVEN row — no row
truncation of its own. -/
def format_table_claimed (columns : List String) (rows : List (List String))
    (query_info : String) : String :=
  if columns.isEmpty then "No results found"
  else
    let header := String.intercalate " | " columns
    let separator := String.intercalate " | " (List.replicate columns.length "---")
    let row_strs := rows.map (fun row => String.intercalate " | " row)
    "```\n" ++ header ++ "\n" ++ separator ++ "\n" ++ String.intercalate "\n" row_strs ++
      "\n```\n_Query returned " ++ query_info ++ "_"

/-! Database executor, src/db.py lines 90-178 (`DatabaseExecutor.execute_query`). -/

/-- Outcome of `self.conn_pool.getconn()`: either a connection is checked out, or
the call raises (pool error); in the latter case `conn` stays `None`. -/
inductive PoolAcq
  | acquired
  | failed (message : String)

/-- Outcome of the database session on the checked-out connection (the cursor
calls of src/db.py lines 108-125), classified by the driver exception caught:
`psycopg2.OperationalError`, `psycopg2.ProgrammingError`,
`psycopg2.extensions.QueryCanceledError`, or any other exception. -/
inductive DbOutcome
  | ok (columns : List String) (rows : List (List String))
  | operationalError (message : String)
  | programmingError (message : String)
  | queryCanceled
  | otherError (message : String)

/-- Result of one `execute_query` invocation: the returned triple or the raised
`BotError`, together with how many pool checkouts (`getconn`) and releases
(`putconn`) the invocation performed. -/
structure ExecResult where
  result : Except BotError (List String × List (List String) × String)
  checkouts : Nat
  releases : Nat

/-- The row-cap and cardinality descriptor of src/db.py lines 127-139. -/
def execShape (columns : List String) (rows : List (List String)) :
    List String × List (List String) × String :=
  if rows.length = 0 then (columns, rows, "0 rows")
  else if rows.length = 1 then (columns, rows, "1 row")
  else if rows.length ≤ Config.MAX_RESULT_ROWS then
    (columns, rows, toString rows.length ++ " rows")
  else
    (columns, rows.take Config.MAX_RESULT_ROWS,
      toString Config.MAX_RESULT_ROWS ++ " of " ++ toString rows.length ++ " rows (limited)")

/-- `DatabaseExecutor.execute_query` (src/db.py lines 90-178).  The gate runs
first; only then is a connection fetched from the pool (a failing `getconn`
leaves `conn = None`, is caught by the blanket `except Exception`, and the
`finally` block skips `putconn`).  Each driver-exception class maps to the
`DatabaseError` of the corresponding `except` clause, and the `finally` block
releases the connection exactly when one was checked out. -/
def execute_query (parse : List Char → Option (List (List Char))) (acq : PoolAcq)
    (dbRun : List Char → DbOutcome) (sql : List Char) : ExecResult :=
  if is_safe_query parse sql = false then
    { result := .error ⟨.validation, "Query validation failed - not a SELECT statement",
        some "Only SELECT queries are allowed (no CREATE, DROP, etc)"⟩,
      checkouts := 0, releases := 0 }
  else
    match acq with
    | .failed s =>
      { result := .error ⟨.database, "Unexpected error: " ++ s,
          some "An error occurred executing the query"⟩,
        checkouts := 0, releases := 0 }
    | .acquired =>
      match dbRun sql with
      | .ok columns rows =>
        { result := .ok (execShape columns rows), checkouts := 1, releases := 1 }
      | .operationalError s =>
        { result := .error ⟨.database, "Database connection error: " ++ s,
            some "Database connection lost. Try again."⟩,
          checkouts := 1, releases := 1 }
      | .programmingError s =>
        { result := .error ⟨.database, "SQL error: " ++ s,
            some ("Query error: " ++ s.take 100)⟩,
          checkouts := 1, releases := 1 }
      | .queryCanceled =>
        { result := .error ⟨.database, "Query exceeded timeout",
            some ("Query took too long (max " ++ toString Config.QUERY_TIMEOUT ++ " seconds)")⟩,
          checkouts := 1, releases := 1 }
      | .otherError s =>
        { result := .error ⟨.database, "Unexpected error: " ++ s,
            some "An error occurred executing the query"⟩,
          checkouts := 1, releases := 1 }

/-! Background pipeline, src/main.py lines 124-198 (`process_slash_command`). -/

/-- Result of a pipeline stage (`sql_chain.execute`, `db_executor.execute_query`):
a value, or a raised Python exception. -/
inductive StepResult (α : Type)
  | ok (a : α)
  | raised (e : PyExc)

/-- Externally visible events of one background run: the LLM chain invoked, the
query executor invoked, a message sent to the response URL. -/
inductive Event
  | chainCalled (question : String)
  | execCalled (sql : String)
  | sent (message : String)
deriving DecidableEq

/-- The success-path message of src/main.py lines 160-173. -/
def successMessage (columns : List String) (rows : List (List String)) (info : String) :
    String :=
  if rows.isEmpty then "*Results:*\n\nNo data found."
  else
    let header := String.intercalate " | " columns
    let separator := String.mk (List.replicate header.length '-')
    let table := String.intercalate "\n" (rows.map (fun row => String.intercalate " | " row))
    "*Results:*\n```" ++ header ++ "\n" ++ separator ++ "\n" ++ table ++ "```\n_" ++ info ++ "_"

/-- The message sent by the two `except` blocks of src/main.py lines 184-198: a
`BotError` goes through `ErrorHandler.format_error` and `format_error_message`;
any other exception is sent as the fixed generic text through
`format_error_message`. -/
def pipelineErrorReply : PyExc → String
  | .botError e => format_error_message (ErrorHandler.format_error (.botError e)).slack_text
  | .other _ => format_error_message "Unexpected error occurred."

/-- `process_slash_command` (src/main.py lines 124-198) as the trace of its
events.  `sqlChain` models `sql_chain.execute(question)["result"]`, `execQuery`
models `db_executor.execute_query`; either may raise.  Sending to Slack is an
always-succeeding effect. -/
def process_slash_command (sqlChain : String → StepResult String)
    (execQuery : String → StepResult (List String × List (List String) × String))
    (question : String) : List Event :=
  if question = "" then
    [.sent "Please ask a question.\nExample: `/ask-data show revenue by region`"]
  else if question.length > 500 then
    [.sent "Question too long (max 500 characters)."]
  else
    match sqlChain question with
    | .raised e => [.chainCalled question, .sent (pipelineErrorReply e)]
    | .ok sql_query =>
      match execQuery sql_query with
      | .raised e =>
        [.chainCalled question, .execCalled sql_query, .sent (pipelineErrorReply e)]
      | .ok (columns, rows, info) =>
        [.chainCalled question, .execCalled sql_query,
          .sent (successMessage columns rows info)]

/-! Theorems. -/

/-- C1: for every SQL string that begins with one of the mutating keywords DROP,
DELETE, UPDATE, INSERT, ALTER or TRUNCATE, in any letter case, and for every
behaviour of the external parser, `DatabaseExecutor._is_safe_query` returns
`false`. -/
theorem is_safe_query_rejects_mutating_start
    (parse : List Char → Option (List (List Char))) (sql kw : List Char)
    (hkw : kw ∈ dangerousKeywords) (hpre : kw <+: pyUpper sql) :
    is_safe_query parse sql = false := by
  unfold is_safe_query
  cases hp : parse sql with
  | none => rfl
  | some stmts =>
    cases stmts with
    | nil => rfl
    | cons stmtType rest =>
      simp only
      split
      · rfl
      · have hin : pyIn kw (pyUpper sql) = true := by
          simpa [pyIn] using hpre.isInfix
        have hany : dangerousKeywords.any (fun k => pyIn k (pyUpper sql)) = true :=
          List.any_eq_true.mpr ⟨kw, hkw, hin⟩
        simp [hany]

/-- Witness for C1 at a concrete lowercase DROP statement. -/
theorem is_safe_query_rejects_mutating_start_witness :
    is_safe_query (fun _ => some ["SELECT".data]) "drop table sales_daily".data = false :=
  is_safe_query_rejects_mutating_start _ _ "DROP".data (by decide) (by decide)

/-- C9: for every behaviour of the external parser that yields a single statement
of type SELECT (a syntactically valid single SELECT statement) on an SQL string
whose uppercased text contains no denylisted keyword,
`DatabaseExecutor._is_safe_query` returns `true`; and whenever parsing raises an
exception (`parse` returns `none`), it returns `false` instead of propagating. -/
theorem is_safe_query_accepts_clean_select
    (parse : List Char → Option (List (List Char))) (sql stmtType : List Char) :
    (parse sql = some [stmtType] → pyUpper stmtType = "SELECT".data →
      (∀ kw ∈ dangerousKeywords, ¬ (kw <:+: pyUpper sql)) →
      is_safe_query parse sql = true)
    ∧ (parse sql = none → is_safe_query parse sql = false) := by
  constructor
  · intro hp htype hclean
    unfold is_safe_query
    rw [hp]
    have hany : dangerousKeywords.any (fun k => pyIn k (pyUpper sql)) = false := by
      rw [List.any_eq_false]
      intro k hk
      simpa [pyIn] using hclean k hk
    simp [htype, hany]
  · intro hp
    unfold is_safe_query
    rw [hp]

/-- Witness for C9: a clean single SELECT is accepted, and a parse exception is
rejected. -/
theorem is_safe_query_accepts_clean_select_witness :
    is_safe_query (fun _ => some ["SELECT".data]) "SELECT revenue FROM sales_daily".data = true
    ∧ is_safe_query (fun _ => none) "SELECT revenue FROM sales_daily".data = false :=
  ⟨(is_safe_query_accepts_clean_select (fun _ => some ["SELECT".data])
      "SELECT revenue FROM sales_daily".data "SELECT".data).1 rfl (by decide) (by decide),
    (is_safe_query_accepts_clean_select (fun _ => none)
      "SELECT revenue FROM sales_daily".data "SELECT".data).2 rfl⟩

/-- C2: every invocation of `DatabaseExecutor.execute_query`, whatever the gate,
pool-acquisition, and database outcomes, performs exactly as many pool releases
as checkouts, and at most one of each: no invocation leaks a checked-out
connection on any exit path. -/
theorem execute_query_pool_balanced
    (parse : List Char → Option (List (List Char))) (acq : PoolAcq)
    (dbRun : List Char → DbOutcome) (sql : List Char) :
    (execute_query parse acq dbRun sql).checkouts =
      (execute_query parse acq dbRun sql).releases
    ∧ (execute_query parse acq dbRun sql).releases ≤ 1 := by
  unfold execute_query
  split
  · exact ⟨rfl, Nat.zero_le 1⟩
  · cases acq with
    | failed s => exact ⟨rfl, Nat.zero_le 1⟩
    | acquired => cases dbRun sql <;> exact ⟨rfl, Nat.le_refl 1⟩

/-- C3: when the SQL fails the query gate, `DatabaseExecutor.execute_query`
raises the `ValidationError` with the fixed messages and performs no pool
checkout and no pool release: the pool is untouched on that path. -/
theorem execute_query_unsafe_before_pool
    (parse : List Char → Option (List (List Char))) (acq : PoolAcq)
    (dbRun : List Char → DbOutcome) (sql : List Char)
    (h : is_safe_query parse sql = false) :
    (execute_query parse acq dbRun sql).result =
      .error ⟨.validation, "Query validation failed - not a SELECT statement",
        some "Only SELECT queries are allowed (no CREATE, DROP, etc)"⟩
    ∧ (execute_query parse acq dbRun sql).checkouts = 0
    ∧ (execute_query parse acq dbRun sql).releases = 0 := by
  unfold execute_query
  simp [h]

/-- Witness for C3 at a parse oracle that raises. -/
theorem execute_query_unsafe_before_pool_witness :
    (execute_query (fun _ => none) .acquired (fun _ => .queryCanceled)
        "DELETE FROM sales_daily".data).checkouts = 0 :=
  (execute_query_unsafe_before_pool (fun _ => none) .acquired (fun _ => .queryCanceled)
    "DELETE FROM sales_daily".data rfl).2.1

/-- C4: on a successful execution (gate passed, connection acquired, statement
returned `rows`), if at most `MAX_RESULT_ROWS = 10` rows were fetched then all
of them are returned with the exact-count descriptor "0 rows" / "1 row" /
"n rows"; if more were fetched then exactly the first 10, in order, are
returned with the descriptor "10 of n rows (limited)". -/
theorem execute_query_row_cap
    (parse : List Char → Option (List (List Char))) (dbRun : List Char → DbOutcome)
    (sql : List Char) (columns : List String) (rows : List (List String))
    (hsafe : is_safe_query parse sql = true) (hdb : dbRun sql = .ok columns rows) :
    (rows.length ≤ 10 →
      (execute_query parse .acquired dbRun sql).result =
        .ok (columns, rows,
          if rows.length = 0 then "0 rows"
          else if rows.length = 1 then "1 row"
          else toString rows.length ++ " rows"))
    ∧ (rows.length > 10 →
      (execute_query parse .acquired dbRun sql).result =
        .ok (columns, rows.take 10, "10 of " ++ toString rows.length ++ " rows (limited)")
      ∧ (rows.take 10).length = 10) := by
  have hrun : execute_query parse .acquired dbRun sql =
      { result := .ok (execShape columns rows), checkouts := 1, releases := 1 } := by
    unfold execute_query
    rw [hsafe]
    simp [hdb]
  constructor
  · intro hle
    rw [hrun]
    unfold execShape
    rcases Nat.eq_or_lt_of_le (Nat.zero_le rows.length) with h0 | h0
    · simp [← h0]
    · rcases Nat.eq_or_lt_of_le h0 with h1 | h1
      · simp [← h1]
      · have hne0 : rows.length ≠ 0 := by omega
        have hne1 : rows.length ≠ 1 := by omega
        simp [hne0, hne1, Config.MAX_RESULT_ROWS, hle]
  · intro hgt
    rw [hrun]
    have hne0 : rows.length ≠ 0 := by omega
    have hne1 : rows.length ≠ 1 := by omega
    have hnle : ¬ rows.length ≤ Config.MAX_RESULT_ROWS := by
      simp only [Config.MAX_RESULT_ROWS]; omega
    have hlit : toString Config.MAX_RESULT_ROWS ++ " of " = "10 of " := by decide
    constructor
    · show Except.ok (execShape columns rows) = _
      unfold execShape
      rw [if_neg hne0, if_neg hne1, if_neg hnle, hlit]
      rfl
    · simp [List.length_take]
      omega

/-- Witness for C4 at a two-row result below the cap. -/
theorem execute_query_row_cap_witness :
    (execute_query (fun _ => some ["SELECT".data]) .acquired
        (fun _ => .ok ["region"] [["north"], ["south"]])
        "SELECT region FROM sales_daily".data).result =
      .ok (["region"], [["north"], ["south"]], "2 rows") :=
  (execute_query_row_cap (fun _ => some ["SELECT".data])
    (fun _ => .ok ["region"] [["north"], ["south"]])
    "SELECT region FROM sales_daily".data ["region"] [["north"], ["south"]]
    (by decide) rfl).1 (by decide)

/-- C5: when the gate passes, the connection is acquired and the statement is
cancelled for exceeding the time limit, `DatabaseExecutor.execute_query` raises
a `DatabaseError` whose user-facing message is the fixed "query took too long"
text (with the configured 30-second limit), which differs from the
connection-lost text raised for connection-level (`OperationalError`)
failures. -/
theorem execute_query_timeout_message
    (parse : List Char → Option (List (List Char))) (sql : List Char)
    (hsafe : is_safe_query parse sql = true) :
    (execute_query parse .acquired (fun _ => .queryCanceled) sql).result =
      .error ⟨.database, "Query exceeded timeout",
        some "Query took too long (max 30 seconds)"⟩
    ∧ (∀ s, (execute_query parse .acquired (fun _ => .operationalError s) sql).result =
        .error ⟨.database, "Database connection error: " ++ s,
          some "Database connection lost. Try again."⟩)
    ∧ "Query took too long (max 30 seconds)" ≠ "Database connection lost. Try again." := by
  refine ⟨?_, fun s => ?_, by decide⟩
  · unfold execute_query
    rw [hsafe]
    rfl
  · unfold execute_query
    rw [hsafe]
    rfl

/-- Witness for C5 at a concrete safe query. -/
theorem execute_query_timeout_message_witness :
    (execute_query (fun _ => some ["SELECT".data]) .acquired (fun _ => .queryCanceled)
        "SELECT orders FROM sales_daily".data).result =
      .error ⟨.database, "Query exceeded timeout",
        some "Query took too long (max 30 seconds)"⟩ :=
  (execute_query_timeout_message (fun _ => some ["SELECT".data])
    "SELECT orders FROM sales_daily".data (by decide)).1

/-- C6: a command whose question text is empty or longer than 500 characters
makes `process_slash_command` send exactly one direct validation message (the
example-usage text when empty, the too-long text otherwise) and terminate
without ever invoking the SQL chain or the query executor. -/
theorem process_slash_command_validates_input
    (sqlChain : String → StepResult String)
    (execQuery : String → StepResult (List String × List (List String) × String))
    (question : String) (h : question = "" ∨ question.length > 500) :
    process_slash_command sqlChain execQuery question =
      [.sent (if question = "" then
          "Please ask a question.\nExample: `/ask-data show revenue by region`"
        else "Question too long (max 500 characters).")]
    ∧ (∀ q, Event.chainCalled q ∉ process_slash_command sqlChain execQuery question)
    ∧ (∀ s, Event.execCalled s ∉ process_slash_command sqlChain execQuery question) := by
  rcases h with h | h
  · subst h
    refine ⟨rfl, fun q => ?_, fun s => ?_⟩ <;> simp [process_slash_command]
  · have hne : ¬ question = "" := by
      intro he
      rw [he] at h
      simp at h
    refine ⟨?_, fun q => ?_, fun s => ?_⟩ <;>
      simp [process_slash_command, hne, h]

/-- Witness for C6 at the empty question. -/
theorem process_slash_command_validates_input_witness :
    process_slash_command (fun _ => .ok "SELECT 1;") (fun _ => .ok ([], [], "0 rows")) "" =
      [.sent "Please ask a question.\nExample: `/ask-data show revenue by region`"] := by
  have h := (process_slash_command_validates_input (fun _ => .ok "SELECT 1;")
    (fun _ => .ok ([], [], "0 rows")) "" (Or.inl rfl)).1
  simpa using h

/-- C7: whenever a stage of the background pipeline fails (the SQL chain or the
query executor raises), the single message `process_slash_command` delivers is
the code-block wrapper `format_error_message` applied to a warning-glyph-prefixed
user-facing string: for a typed `BotError` the string `user_friendly or message`
produced by `ErrorHandler.format_error`, and for any other exception the fixed
generic "Unexpected error occurred." text — never the raw exception. -/
theorem process_slash_command_wraps_errors
    (sqlChain : String → StepResult String)
    (execQuery : String → StepResult (List String × List (List String) × String))
    (question sql_query : String) (e : PyExc)
    (hne : question ≠ "") (hlen : ¬ question.length > 500) :
    (sqlChain question = .raised e →
      process_slash_command sqlChain execQuery question =
        [.chainCalled question,
          .sent (match e with
            | .botError b => format_error_message ("⚠️ " ++ pyOr b.user_friendly b.message)
            | .other _ => format_error_message "Unexpected error occurred.")])
    ∧ (sqlChain question = .ok sql_query → execQuery sql_query = .raised e →
      process_slash_command sqlChain execQuery question =
        [.chainCalled question, .execCalled sql_query,
          .sent (match e with
            | .botError b => format_error_message ("⚠️ " ++ pyOr b.user_friendly b.message)
            | .other _ => format_error_message "Unexpected error occurred.")]) := by
  have hreply : ∀ e' : PyExc, pipelineErrorReply e' =
      (match e' with
        | .botError b => format_error_message ("⚠️ " ++ pyOr b.user_friendly b.message)
        | .other _ => format_error_message "Unexpected error occurred.") := by
    intro e'
    cases e' with
    | botError b => rfl
    | other s => rfl
  constructor
  · intro hchain
    simp [process_slash_command, hne, hlen, hchain, hreply e]
  · intro hchain hexec
    simp [process_slash_command, hne, hlen, hchain, hexec, hreply e]

/-- Witness for C7: a database `BotError` raised by the executor stage reaches
the user glyph-prefixed and code-block wrapped. -/
theorem process_slash_command_wraps_errors_witness :
    process_slash_command (fun _ => .ok "SELECT 1;")
        (fun _ => .raised (.botError ⟨.database, "boom",
          some "Database connection lost. Try again."⟩))
        "show revenue" =
      [.chainCalled "show revenue", .execCalled "SELECT 1;",
        .sent "```\n⚠️ ⚠️ Database connection lost. Try again.\n```"] := by
  have h := (process_slash_command_wraps_errors (fun _ => .ok "SELECT 1;")
    (fun _ => .raised (.botError ⟨.database, "boom",
      some "Database connection lost. Try again."⟩))
    "show revenue" "SELECT 1;"
    (.botError ⟨.database, "boom", some "Database connection lost. Try again."⟩)
    (by decide) (by decide)).2 rfl rfl
  simpa [format_error_message, pyOr] using h

/-- C10: a `BotError` raised with `user_friendly = None` has its internal
diagnostic message itself, prefixed with the warning glyph, placed by
`ErrorHandler.format_error` in the user-facing `slack_text` field. -/
theorem format_error_none_falls_back_to_message (k : ErrKind) (msg : String) :
    (ErrorHandler.format_error (.botError ⟨k, msg, none⟩)).slack_text = "⚠️ " ++ msg := rfl

/-- C8 counterexample: on eleven given rows, `format_table_for_slack` does NOT
render one line per given row as the claim states — it truncates to the first
ten and appends an elision note, so its output differs from the claimed
rendering at this concrete input. -/
theorem format_table_truncates_counterexample :
    format_table_for_slack ["region"] (List.replicate 11 ["north"]) "10 of 11 rows (limited)" ≠
      format_table_claimed ["region"] (List.replicate 11 ["north"]) "10 of 11 rows (limited)" := by
  decide

/-- C8 amended: with zero columns the formatter returns the fixed
"No results found" string; with columns but zero rows it returns the fixed
"No data returned" string; with columns and between 1 and 10 rows it renders
exactly the claimed table (header row, separator line, one line per given row,
code-block wrapped, descriptor appended); with more than 10 rows it renders only
the first 10 row lines and appends "... and (n-10) more rows" before the closing
fence — an additional truncation of its own. -/
theorem format_table_characterization (columns : List String)
    (rows : List (List String)) (query_info : String) :
    (columns = [] → format_table_for_slack columns rows query_info = "No results found")
    ∧ (columns ≠ [] → rows = [] →
        format_table_for_slack columns rows query_info = "No data returned")
    ∧ (columns ≠ [] → rows ≠ [] → rows.length ≤ 10 →
        format_table_for_slack columns rows query_info =
          format_table_claimed columns rows query_info)
    ∧ (columns ≠ [] → rows.length > 10 →
        format_table_for_slack columns rows query_info =
          "```\n" ++ String.intercalate " | " columns ++ "\n" ++
            String.intercalate " | " (List.replicate columns.length "---") ++ "\n" ++
            String.intercalate "\n"
              ((rows.take 10).map (fun row => String.intercalate " | " row)) ++
            "\n... and " ++ toString (rows.length - 10) ++ " more rows" ++
            "\n```\n_Query returned " ++ query_info ++ "_") := by
  refine ⟨?_, ?_, ?_, ?_⟩
  · intro hc
    subst hc
    rfl
  · intro hc hr
    subst hr
    have h1 : ¬ columns.isEmpty := by simpa [List.isEmpty_iff] using hc
    simp [format_table_for_slack, h1]
  · intro hc hr hn
    have h1 : ¬ columns.isEmpty := by simpa [List.isEmpty_iff] using hc
    have h2 : ¬ rows.isEmpty := by simpa [List.isEmpty_iff] using hr
    have h3 : ¬ (rows.length > 10) := by omega
    have h4 : rows.take 10 = rows := List.take_of_length_le hn
    unfold format_table_for_slack format_table_claimed
    simp [h1, h2, h3, h4]
  · intro hc hgt
    have h1 : ¬ columns.isEmpty := by simpa [List.isEmpty_iff] using hc
    have h2 : ¬ rows.isEmpty := by
      intro he
      rw [List.isEmpty_iff] at he
      rw [he] at hgt
      simp at hgt
    unfold format_table_for_slack
    simp [h1, h2, hgt]

/-- Witness for the amended C8: at one column and one row the formatter output
coincides with the claimed rendering. -/
theorem format_table_characterization_witness :
    format_table_for_slack ["region"] [["north"]] "1 row" =
      format_table_claimed ["region"] [["north"]] "1 row" :=
  (format_table_characterization ["region"] [["north"]] "1 row").2.2.1
    (by decide) (by decide) (by decide)
